import Mathlib

/-!
# stc-rpc: a shallow embedding of `libstc-rpc/stc_rpc.c`

The transport is embedded as state-passing functions over an explicit `World`:
the session object (`struct rpc`), the connected socket with its peer, the two
pipes, the caller stack cells used as completion markers, and counters for the
condition-variable traffic.  Everything the operating system or the peer decides
(what `recv`/`send` return, which descriptors `select` reports, whether a
resource can be created) is supplied as an explicit script, so each function is
computable and total; a result of `none` means the C code never returns (it
spins on `EAGAIN` for ever, or sleeps in a wait that nobody ends).

Threads are interleaved at the waits: a caller asleep in `rpc_cond_wait` lets the
other threads run (one entry of a script per wait), and the worker is observed
between two passes of its loop.  The handler is a function of its two
arguments, and every invocation is logged with the arguments it received.

Fixed-size records travel as blocks of bytes (`Bytes`); the sizes
`sizeof(rpc_request_hdr_t)` and `sizeof(rpc_reply_t)` come from `stc_rpc.h`,
which is not part of the sources, and are therefore parameters (`Layout`).
-/

namespace StcRpc

/-! ## Wire records -/

/-- A block of raw bytes, the content of a C buffer. -/
abbrev Bytes := List Nat

/-- Modelled from the spec: `stc_rpc.h` is absent, so the two record sizes
`sizeof(rpc_request_hdr_t)` and `sizeof(rpc_reply_t)` are parameters. -/
structure Layout where
  hdr : Nat
  reply : Nat

/-- The callback `rpc_handler_t`: it receives `(&hdr, &reply)`, may rewrite the
reply in place and returns an `int`, zero meaning success. -/
abbrev rpc_handler_t := Bytes → Bytes → Int × Bytes

/-- Modelled from the spec: `struct rpc_request_t` of the absent `stc_rpc.h`, an
envelope holding a header, a reply and the completion marker `int *reply_marker`
(an address of a caller stack cell, `none` for `NULL`). -/
structure rpc_request_t where
  header : Bytes
  reply : Bytes
  reply_marker : Option Nat

/-- The session object `struct rpc`. -/
structure rpc where
  fd : Int
  pipefd : Int × Int
  pipectrl : Int × Int
  active : Int
  handler : Option rpc_handler_t

/-! ## The environment -/

/-- The value of `errno` on which `rpc_read` and `rpc_write` retry. -/
def EAGAIN : Nat := 11

/-- The byte that asks the worker to stop (`#define CtrlPipe_Shutdown 0`). -/
def CtrlPipe_Shutdown : Nat := 0

/-- One outcome of `recv(2)` on the socket: an error with its `errno`, or the
bytes the kernel hands over (none at all when the peer has closed). -/
inductive RecvEv where
  | err (errno : Nat)
  | data (bs : Bytes)

/-- One outcome of `send(2)` on the socket: an error with its `errno`, or the
number of bytes the kernel is ready to take. -/
inductive SendEv where
  | err (errno : Nat)
  | accept (n : Nat)

/-- The connected socket: the outcomes of the coming `recv` and `send` calls,
and the blocks the peer has been sent so far (oldest first). -/
structure Sock where
  rx : List RecvEv
  tx : List SendEv
  out : List Bytes

/-- State of the worker thread handle `rpc->rpc_thread`. -/
inductive Thread where
  | absent
  | running
  | joined
  deriving DecidableEq

/-- A system call recorded by `rpc_stop`, with the value it returned. -/
inductive Op where
  | write (fd : Int) (ret : Int)
  | join (ret : Int)
  | close (fd : Int) (ret : Int)
  deriving DecidableEq

/-- The synchronisation primitives embedded in `struct rpc`. -/
inductive Prim where
  | fd_mutex
  | cond_mtx
  | cond
  | pipe_mtx
  deriving DecidableEq

/-- The resources the process holds: open descriptors, initialised (and not yet
destroyed) primitives, and the descriptors switched to `O_NONBLOCK`. -/
structure Os where
  fds : List Int
  prims : List Prim
  nonblock : List Int
  deriving DecidableEq

/-- What resource creation yields inside `rpc_init`: the value each
`pthread_*_init` returns (zero for success), and for each `pipe(2)` the pair
(read end, write end) it opens, or `none` when it fails. -/
structure InitEnv where
  fd_mutex : Int
  cond_mtx : Int
  cond : Int
  pipe_mtx : Int
  pipefd : Option (Int × Int)
  pipectrl : Option (Int × Int)

/-- Everything the functions of `stc_rpc.c` read or change. -/
structure World where
  /-- the session object -/
  rpc : rpc
  /-- the socket `rpc->fd` -/
  sock : Sock
  /-- envelopes queued in the Call Queue pipe, oldest first -/
  pipe : List rpc_request_t
  /-- bytes queued in the Control pipe, oldest first -/
  ctrl : List Nat
  /-- caller stack cells holding completion markers, by address -/
  mem : Nat → Int
  /-- content of the uninitialised stack buffer `hdr` of `rpc_recv` -/
  junk : Bytes
  /-- arguments of every handler invocation so far, oldest first -/
  calls : List (Bytes × Bytes)
  /-- number of broadcasts on the Completion Signal (`rpc_cond_signal`) -/
  signals : Nat
  /-- number of waits on the Completion Signal (`rpc_cond_wait`) -/
  waits : Nat
  /-- resources held by the process -/
  os : Os
  /-- the worker thread -/
  thread : Thread
  /-- system calls issued by `rpc_stop`, oldest first -/
  trace : List Op

/-- The descriptors `select` reports readable in one worker iteration. -/
structure Ready where
  sock : Bool
  pipe : Bool
  ctrl : Bool

/-! ## Condition variable -/

/-- `rpc_cond_wait`: one wait on the Completion Signal. -/
def rpc_cond_wait (w : World) : World :=
  { w with waits := w.waits + 1 }

/-- `rpc_cond_signal`: one broadcast on the Completion Signal. -/
def rpc_cond_signal (w : World) : World :=
  { w with signals := w.signals + 1 }

/-! ## Socket transfers -/

/-- The retry loop of `rpc_read` over the coming `recv` outcomes: `EAGAIN` is
retried, any other error gives `-1`, and data gives the number of bytes stored
at the start of the buffer (at most `size`).  The result carries the return
value, the buffer afterwards and the outcomes left. -/
def rpc_read_loop (data : Bytes) (size : Nat) :
    List RecvEv → Option (Int × Bytes × List RecvEv)
  | [] => none
  | RecvEv.err e :: rest =>
      if e = EAGAIN then rpc_read_loop data size rest else some (-1, data, rest)
  | RecvEv.data bs :: rest =>
      some ((min bs.length size : Nat), bs.take size ++ data.drop (min bs.length size), rest)

/-- `rpc_read(fd, data, size)` on the session socket. -/
def rpc_read (s : Sock) (data : Bytes) (size : Nat) : Option (Int × Bytes × Sock) :=
  match rpc_read_loop data size s.rx with
  | none => none
  | some (ret, d, rest) => some (ret, d, { s with rx := rest })

/-- The retry loop of `rpc_write` over the coming `send` outcomes: `EAGAIN` is
retried, any other error gives `-1`, otherwise the number of bytes taken (at
most `size`).  The result carries the return value, the block that went out (if
any) and the outcomes left. -/
def rpc_write_loop (data : Bytes) (size : Nat) :
    List SendEv → Option (Int × Option Bytes × List SendEv)
  | [] => none
  | SendEv.err e :: rest =>
      if e = EAGAIN then rpc_write_loop data size rest else some (-1, none, rest)
  | SendEv.accept n :: rest =>
      some ((min n size : Nat), some (data.take (min n size)), rest)

/-- `rpc_write(fd, data, size)` on the session socket. -/
def rpc_write (s : Sock) (data : Bytes) (size : Nat) : Option (Int × Sock) :=
  match rpc_write_loop data size s.tx with
  | none => none
  | some (ret, none, rest) => some (ret, { s with tx := rest })
  | some (ret, some blk, rest) => some (ret, { s with tx := rest, out := s.out ++ [blk] })

/-! ## The worker: outbound and inbound steps -/

/-- Store `1` through the pointer `req.reply_marker` when it is not `NULL`. -/
def set_marker (w : World) : Option Nat → World
  | none => w
  | some a => { w with mem := fun x => if x = a then 1 else w.mem x }

/-- `rpc_send`: take one envelope off the Call Queue pipe into the local `req`
(the `read` on the empty non-blocking pipe fails), write its header, read the
reply into `req.reply`, run the handler on it, set the completion marker and
broadcast.  Returns `0`, or `-1` from `fail`; the local `req` is gone when the
function returns.  A call through a `NULL` handler does not return. -/
def rpc_send (L : Layout) (w : World) : Option (Int × World) :=
  match w.pipe with
  | [] => some (-1, w)
  | req :: q =>
    let w1 := { w with pipe := q }
    match rpc_write w1.sock req.header L.hdr with
    | none => none
    | some (ret, s) =>
      let w2 := { w1 with sock := s }
      if ret < 0 then some (-1, w2) else
      match rpc_read w2.sock req.reply L.reply with
      | none => none
      | some (ret, reply, s) =>
        let w3 := { w2 with sock := s }
        if ret < 0 then some (-1, w3) else
        match w3.rpc.handler with
        | none => none
        | some h =>
          let w4 := { w3 with calls := w3.calls ++ [(req.header, reply)] }
          if (h req.header reply).1 ≠ 0 then some (-1, w4) else
          some (0, rpc_cond_signal (set_marker w4 req.reply_marker))

/-- `rpc_recv`: zero a reply, read one header, run the handler on both and
write the reply back.  Returns `0`, or `-1` from `fail`. -/
def rpc_recv (L : Layout) (w : World) : Option (Int × World) :=
  let reply := List.replicate L.reply 0
  match rpc_read w.sock w.junk L.hdr with
  | none => none
  | some (ret, hdr, s) =>
    let w1 := { w with sock := s }
    if ret ≤ 0 then some (-1, w1) else
    match w1.rpc.handler with
    | none => none
    | some h =>
      let w2 := { w1 with calls := w1.calls ++ [(hdr, reply)] }
      if (h hdr reply).1 ≠ 0 then some (-1, w2) else
      match rpc_write w2.sock (h hdr reply).2 L.reply with
      | none => none
      | some (ret, s) =>
        let w3 := { w2 with sock := s }
        if ret < 0 then some (-1, w3) else some (0, w3)

/-! ## The worker loop -/

/-- The assignment `rpc->active = v`. -/
def set_active (w : World) (v : Int) : World :=
  { w with rpc := { w.rpc with active := v } }

/-- Third readiness check of `do_rpc_thread`: when the Control pipe is readable,
read one byte into `c` (initialised to `CtrlPipe_Shutdown`, and left so when the
read brings nothing) and stop on `CtrlPipe_Shutdown`. -/
def thread_ctrl (w : World) (fds : Ready) : World :=
  if fds.ctrl then
    let c := w.ctrl.headD CtrlPipe_Shutdown
    let w1 := { w with ctrl := w.ctrl.tail }
    if c = CtrlPipe_Shutdown then set_active w1 0 else w1
  else w

/-- Second readiness check of `do_rpc_thread`: when the Call Queue pipe is
readable run `rpc_send`; on failure clear `active` and jump to `handled`. -/
def thread_pipe (L : Layout) (w : World) (fds : Ready) : Option World :=
  if fds.pipe then
    match rpc_send L w with
    | none => none
    | some (rc, w1) => if rc < 0 then some (set_active w1 0) else some (thread_ctrl w1 fds)
  else some (thread_ctrl w fds)

/-- One pass through the body of the `while (rpc->active)` loop of
`do_rpc_thread`, `fds` being the set `select` filled in: when the socket is
readable run `rpc_recv`; on failure clear `active` and jump to `handled`. -/
def thread_iteration (L : Layout) (w : World) (fds : Ready) : Option World :=
  if fds.sock then
    match rpc_recv L w with
    | none => none
    | some (rc, w1) => if rc < 0 then some (set_active w1 0) else thread_pipe L w1 fds
  else thread_pipe L w fds

/-- The `while (rpc->active)` loop of `do_rpc_thread` over the coming results of
`select`; `none` when the worker sleeps in `select` for ever. -/
def thread_loop (L : Layout) : World → List Ready → Option World
  | w, [] => if w.rpc.active ≠ 0 then none else some w
  | w, fds :: rest =>
      if w.rpc.active ≠ 0 then
        match thread_iteration L w fds with
        | none => none
        | some w1 => thread_loop L w1 rest
      else some w

/-- The part of `do_rpc_thread` from the loop head to the end: the loop, then
the final broadcast. -/
def thread_finish (L : Layout) (w : World) (script : List Ready) : Option World :=
  match thread_loop L w script with
  | none => none
  | some w1 => some (rpc_cond_signal w1)

/-- `do_rpc_thread`: refuse a session without handler, else set `active`,
broadcast, run the loop and broadcast again. -/
def do_rpc_thread (L : Layout) (w : World) (script : List Ready) : Option World :=
  match w.rpc.handler with
  | none => some w
  | some _ => thread_finish L (rpc_cond_signal (set_active w 1)) script

/-! ## The call API -/

/-- The loop `while (!done && rpc->active) rpc_cond_wait(rpc);` of `__rpc_call`,
`a` being the address of `done`.  The caller is the only thread the function
describes, so what the other threads do while it sleeps in each wait is a
script; `none` when it sleeps for ever. -/
def call_wait_loop (a : Nat) : World → List (World → Option World) → Option World
  | w, [] => if w.mem a = 0 ∧ w.rpc.active ≠ 0 then none else some w
  | w, o :: rest =>
      if w.mem a = 0 ∧ w.rpc.active ≠ 0 then
        match o (rpc_cond_wait w) with
        | none => none
        | some w1 => call_wait_loop a w1 rest
      else some w

/-- The code after the label `done:` of `__rpc_call`: `ret = 0`, then `-1` when
`!done || !rpc->active`. -/
def call_status (a : Nat) (w : World) : Int :=
  if w.mem a = 0 ∨ w.rpc.active = 0 then -1 else 0

/-- `__rpc_call(rpc, req, wait)`.  `a` is the address of the local `done`, `wr`
the value `write(2)` returns for the envelope on the Call Queue pipe (the
envelope is queued when it is not negative).  The result carries the return
value, the envelope of the caller afterwards, and the world. -/
def __rpc_call (w : World) (req : rpc_request_t) (wait : Int) (a : Nat) (wr : Int)
    (others : List (World → Option World)) : Option (Int × rpc_request_t × World) :=
  let w0 := { w with mem := fun x => if x = a then 0 else w.mem x }
  let req1 := { req with reply_marker := some a }
  if wr < 0 then some (wr, req1, w0) else
  let w1 := { w0 with pipe := w0.pipe ++ [req1] }
  if wait = 0 then some (call_status a w1, req1, w1) else
  match call_wait_loop a w1 others with
  | none => none
  | some w2 => some (call_status a w2, req1, w2)

/-- `rpc_call`: `__rpc_call` with `wait = 1`. -/
def rpc_call (w : World) (req : rpc_request_t) (a : Nat) (wr : Int)
    (others : List (World → Option World)) : Option (Int × rpc_request_t × World) :=
  __rpc_call w req 1 a wr others

/-- `rpc_call_noreply`: `__rpc_call` with `wait = 0`. -/
def rpc_call_noreply (w : World) (req : rpc_request_t) (a : Nat) (wr : Int)
    (others : List (World → Option World)) : Option (Int × rpc_request_t × World) :=
  __rpc_call w req 0 a wr others

/-! ## Session lifecycle: `rpc_init` -/

/-- A successful `pthread_mutex_init` / `pthread_cond_init`. -/
def prim_init (os : Os) (p : Prim) : Os :=
  { os with prims := p :: os.prims }

/-- The call `pthread_mutex_destroy` / `pthread_cond_destroy`. -/
def prim_destroy (os : Os) (p : Prim) : Os :=
  { os with prims := os.prims.erase p }

/-- A successful `pipe(2)` opening the descriptors `p.1` and `p.2`. -/
def pipe_open (os : Os) (p : Int × Int) : Os :=
  { os with fds := p.2 :: p.1 :: os.fds }

/-- `set_nonblocking(fd)`. -/
def set_nonblocking (os : Os) (fd : Int) : Os :=
  { os with nonblock := fd :: os.nonblock }

/-- Cleanup from the label `fail_cond_mutex:` of `rpc_init`. -/
def fail_cond_mutex (os : Os) : Os :=
  prim_destroy os Prim.fd_mutex

/-- Cleanup from the label `fail_cond:` of `rpc_init`. -/
def fail_cond (os : Os) : Os :=
  fail_cond_mutex (prim_destroy os Prim.cond_mtx)

/-- Cleanup from the label `fail_pipe_mutex:` of `rpc_init`. -/
def fail_pipe_mutex (os : Os) : Os :=
  fail_cond (prim_destroy os Prim.cond)

/-- Cleanup from the label `fail_pipe:` of `rpc_init`. -/
def fail_pipe (os : Os) : Os :=
  fail_pipe_mutex (prim_destroy os Prim.pipe_mtx)

/-- `rpc_init(fd, handler, rpc)`; the handler and the session are pointers,
`none` standing for `NULL`.  The result carries the return value, the session
afterwards and the resources held afterwards. -/
def rpc_init (fd : Int) (handler : Option rpc_handler_t) (rpc : Option StcRpc.rpc)
    (env : InitEnv) (os : Os) : Int × Option StcRpc.rpc × Os :=
  if fd < 0 then (-1, rpc, os) else
  match handler with
  | none => (-1, rpc, os)
  | some h =>
    match rpc with
    | none => (-1, none, os)
    | some r =>
      if env.fd_mutex ≠ 0 then (-1, some r, os) else
      let os1 := prim_init os Prim.fd_mutex
      if env.cond_mtx ≠ 0 then (-1, some r, fail_cond_mutex os1) else
      let os2 := prim_init os1 Prim.cond_mtx
      if env.cond ≠ 0 then (-1, some r, fail_cond os2) else
      let os3 := prim_init os2 Prim.cond
      if env.pipe_mtx ≠ 0 then (-1, some r, fail_pipe_mutex os3) else
      let os4 := prim_init os3 Prim.pipe_mtx
      match env.pipefd with
      | none => (-1, some r, fail_pipe os4)
      | some p1 =>
        let r1 := { r with pipefd := p1 }
        let os5 := pipe_open os4 p1
        match env.pipectrl with
        | none => (-1, some r1, fail_pipe os5)
        | some p2 =>
          let r2 := { r1 with pipectrl := p2 }
          let os6 := pipe_open os5 p2
          let os7 := set_nonblocking (set_nonblocking (set_nonblocking (set_nonblocking
            (set_nonblocking os6 r2.pipefd.2) r2.pipefd.1) r2.pipectrl.2) r2.pipectrl.1) fd
          (0, some { r2 with fd := fd, handler := some h }, os7)

/-! ## Session lifecycle: `rpc_join` and `rpc_stop` -/

/-- The call `close(fd)`: it succeeds on an open descriptor and fails on any
other number; either way the call is recorded. -/
def sys_close (w : World) (fd : Int) : World :=
  if fd ∈ w.os.fds then
    { w with os := { w.os with fds := w.os.fds.filter (fun x => x ≠ fd) },
             trace := w.trace ++ [Op.close fd 0] }
  else { w with trace := w.trace ++ [Op.close fd (-1)] }

/-- The iteration that starts in world `w0` with `select` reporting `fds` comes
to its second readiness check in world `w`: either the socket was not readable,
or `rpc_recv` ran and did not fail. -/
def reaches_outbound (L : Layout) (w0 : World) (fds : Ready) (w : World) : Prop :=
  (fds.sock = false ∧ w0 = w) ∨
  (fds.sock = true ∧ ∃ rc : Int, 0 ≤ rc ∧ rpc_recv L w0 = some (rc, w))

/-- The worker, entering an iteration in world `w0` with `select` reporting
`fds`, ends it by failure in world `w1`: it clears `active`, the loop ends
there whatever `select` would report next, one broadcast follows, and from then
on the wait loop of any caller ends at once with the status `-1`. -/
def worker_stops (L : Layout) (w0 : World) (fds : Ready) (rest : List Ready)
    (w1 : World) : Prop :=
  thread_iteration L w0 fds = some (set_active w1 0) ∧
  thread_finish L w0 (fds :: rest) = some (rpc_cond_signal (set_active w1 0)) ∧
  ∀ (a : Nat) (others : List (World → Option World)),
    call_wait_loop a (rpc_cond_signal (set_active w1 0)) others
        = some (rpc_cond_signal (set_active w1 0)) ∧
    call_status a (rpc_cond_signal (set_active w1 0)) = -1

/-- Modelled from the spec: the layout of a header or reply of the absent
`stc_rpc.h`, an integer code (here four bytes, least significant first)
followed by the opaque payload. -/
def record (code : Nat) (payload : Bytes) : Bytes :=
  [code % 256, code / 256 % 256, code / 65536 % 256, code / 16777216 % 256] ++ payload

/-- Modelled from the spec: the `code` field of a record laid out by `record`. -/
def record_code (b : Bytes) : Nat :=
  b.getD 0 0 + 256 * b.getD 1 0 + 65536 * b.getD 2 0 + 16777216 * b.getD 3 0

/-- A layout with one payload byte after the code. -/
def L5 : Layout :=
  { hdr := 5, reply := 5 }

/-- A handler that accepts every message and leaves the reply as it is. -/
def identity_handler : rpc_handler_t :=
  fun _ reply => (0, reply)

/-- A handler that rejects every message. -/
def failing_handler : rpc_handler_t :=
  fun _ reply => (1, reply)

/-- A handler that answers a header with the same record, code and payload. -/
def mirror_handler : rpc_handler_t :=
  fun hdr _ => (0, hdr)

/-- A started session: socket 3, Call Queue pipe (4, 5), Control pipe (6, 7),
worker running, nothing queued, no traffic scripted. -/
def started_world : World :=
  { rpc := { fd := 3, pipefd := (4, 5), pipectrl := (6, 7), active := 1,
             handler := some identity_handler },
    sock := { rx := [], tx := [], out := [] },
    pipe := [], ctrl := [], mem := fun _ => 0, junk := [170, 170, 170, 170, 170],
    calls := [], signals := 1, waits := 0,
    os := { fds := [7, 6, 5, 4, 3],
            prims := [Prim.pipe_mtx, Prim.cond, Prim.cond_mtx, Prim.fd_mutex],
            nonblock := [3, 6, 7, 4, 5] },
    thread := Thread.running, trace := [] }

/-- The round-trip scenario: the peer takes a whole header and answers the call
`code = 5, payload = "x"` with `code = 6, payload = "x"`. -/
def echo_world : World :=
  { started_world with
    sock := { rx := [RecvEv.data (record 6 [120])], tx := [SendEv.accept 5], out := [] } }

/-- The envelope of the round-trip scenario, its reply field zeroed. -/
def echo_req : rpc_request_t :=
  { header := record 5 [120], reply := [0, 0, 0, 0, 0], reply_marker := none }

/-- The round-trip scenario with a shutdown byte waiting in the Control pipe. -/
def stopping_world : World :=
  { echo_world with ctrl := [CtrlPipe_Shutdown] }

/-- A session that is not active (it was stopped, or never started). -/
def stopped_world : World :=
  { started_world with rpc := { started_world.rpc with active := 0 },
                       thread := Thread.joined }

/-- The inbound scenario: the peer sends a header with `code = 9` and takes a
whole reply; the handler answers with the header it was given. -/
def inbound_world : World :=
  { started_world with
    rpc := { started_world.rpc with handler := some mirror_handler },
    sock := { rx := [RecvEv.data (record 9 [120])], tx := [SendEv.accept 5], out := [] } }

/-- The envelope of the round-trip scenario as it lies in the Call Queue, its
marker pointing at the cell 100 of the caller. -/
def queued_req : rpc_request_t :=
  { echo_req with reply_marker := some 100 }

/-- The peer has closed the connection: `recv` returns no bytes. -/
def eof_world : World :=
  { started_world with sock := { rx := [RecvEv.data []], tx := [], out := [] } }

/-- A call is queued, the header goes out, and the reply read fails with
`ECONNRESET` (104). -/
def reset_call_world : World :=
  { started_world with
    pipe := [queued_req],
    sock := { rx := [RecvEv.err 104], tx := [SendEv.accept 5], out := [] } }

/-- The peer sends a single byte of a five-byte header and takes a whole reply. -/
def short_world : World :=
  { started_world with
    sock := { rx := [RecvEv.data [9]], tx := [SendEv.accept 5], out := [] } }

/-- The inbound scenario with a handler that rejects the message. -/
def rejecting_world : World :=
  { inbound_world with rpc := { inbound_world.rpc with handler := some failing_handler } }

/-- The round-trip scenario, the call queued, with a handler that rejects the
reply. -/
def rejecting_call_world : World :=
  { echo_world with
    rpc := { echo_world.rpc with handler := some failing_handler },
    pipe := [queued_req] }

/-- A session as `rpc_alloc` leaves it: every field zeroed. -/
def fresh_rpc : rpc :=
  { fd := 0, pipefd := (0, 0), pipectrl := (0, 0), active := 0, handler := none }

/-- The resources of a process that holds the connected socket 3 only. -/
def boot_os : Os :=
  { fds := [3], prims := [], nonblock := [] }

/-- Every creation inside `rpc_init` succeeds; the pipes get (4, 5) and (6, 7). -/
def all_created : InitEnv :=
  { fd_mutex := 0, cond_mtx := 0, cond := 0, pipe_mtx := 0,
    pipefd := some (4, 5), pipectrl := some (6, 7) }

/-- Every creation succeeds but the last: `pipe(rpc->pipectrl)` fails. -/
def ctrl_pipe_fails : InitEnv :=
  { all_created with pipectrl := none }

/-- The worker finding the Call Queue and the Control pipe readable at once. -/
def serve_queue_and_ctrl (L : Layout) : World → Option World :=
  fun x => thread_iteration L x { sock := false, pipe := true, ctrl := true }

/-! ## Facts about the transfers and the loops -/

theorem rpc_read_loop_keeps (data : Bytes) (size : Nat) (rx : List RecvEv) :
    ∀ ret d rest, rpc_read_loop data size rx = some (ret, d, rest) →
      (ret = -1 ∧ d = data) ∨
      (∃ bs : Bytes, ret = ((min bs.length size : Nat) : Int) ∧
        d = bs.take size ++ data.drop (min bs.length size)) := by
  induction rx with
  | nil => intro ret d rest h; simp [rpc_read_loop] at h
  | cons ev tl ih =>
    intro ret d rest h
    cases ev with
    | err e =>
      by_cases he : e = EAGAIN
      · rw [rpc_read_loop, if_pos he] at h; exact ih ret d rest h
      · rw [rpc_read_loop, if_neg he] at h
        simp only [Option.some.injEq, Prod.mk.injEq] at h
        exact Or.inl ⟨h.1.symm, h.2.1.symm⟩
    | data bs =>
      simp only [rpc_read_loop, Option.some.injEq, Prod.mk.injEq] at h
      exact Or.inr ⟨bs, h.1.symm, h.2.1.symm⟩

theorem rpc_read_sock (s : Sock) (data : Bytes) (size : Nat) (ret : Int) (d : Bytes) (s1 : Sock)
    (h : rpc_read s data size = some (ret, d, s1)) : s1.out = s.out ∧ s1.tx = s.tx := by
  unfold rpc_read at h
  cases hl : rpc_read_loop data size s.rx with
  | none => rw [hl] at h; cases h
  | some v =>
    obtain ⟨a, b, c⟩ := v
    rw [hl] at h
    simp only [Option.some.injEq, Prod.mk.injEq] at h
    obtain ⟨-, -, rfl⟩ := h
    exact ⟨rfl, rfl⟩

theorem rpc_write_loop_block (data : Bytes) (size : Nat) (tx : List SendEv) :
    ∀ ret blk rest, rpc_write_loop data size tx = some (ret, blk, rest) →
      (ret = -1 ∧ blk = none) ∨
      (∃ k : Nat, k ≤ size ∧ ret = (k : Int) ∧ blk = some (data.take k)) := by
  induction tx with
  | nil => intro ret blk rest h; simp [rpc_write_loop] at h
  | cons ev tl ih =>
    intro ret blk rest h
    cases ev with
    | err e =>
      by_cases he : e = EAGAIN
      · rw [rpc_write_loop, if_pos he] at h; exact ih ret blk rest h
      · rw [rpc_write_loop, if_neg he] at h
        simp only [Option.some.injEq, Prod.mk.injEq] at h
        exact Or.inl ⟨h.1.symm, h.2.1.symm⟩
    | accept n =>
      simp only [rpc_write_loop, Option.some.injEq, Prod.mk.injEq] at h
      exact Or.inr ⟨min n size, Nat.min_le_right _ _, h.1.symm, h.2.1.symm⟩

theorem rpc_write_sock (s : Sock) (data : Bytes) (size : Nat) (ret : Int) (s1 : Sock)
    (h : rpc_write s data size = some (ret, s1)) :
    s1.rx = s.rx ∧ ((ret = -1 ∧ s1.out = s.out) ∨
      (∃ k : Nat, k ≤ size ∧ ret = (k : Int) ∧ s1.out = s.out ++ [data.take k])) := by
  unfold rpc_write at h
  cases hl : rpc_write_loop data size s.tx with
  | none => rw [hl] at h; cases h
  | some v =>
    obtain ⟨a, b, c⟩ := v
    rw [hl] at h
    rcases rpc_write_loop_block data size s.tx a b c hl with ⟨h1, h2⟩ | ⟨k, hk, h1, h2⟩
    · subst h2
      simp only [Option.some.injEq, Prod.mk.injEq] at h
      obtain ⟨rfl, rfl⟩ := h
      exact ⟨rfl, Or.inl ⟨h1, rfl⟩⟩
    · subst h2
      simp only [Option.some.injEq, Prod.mk.injEq] at h
      obtain ⟨rfl, rfl⟩ := h
      exact ⟨rfl, Or.inr ⟨k, hk, h1, rfl⟩⟩

theorem rpc_write_whole (s : Sock) (data : Bytes) (size : Nat) (s1 : Sock)
    (hlen : data.length = size)
    (h : rpc_write s data size = some ((size : Int), s1)) :
    s1.out = s.out ++ [data] := by
  rcases (rpc_write_sock s data size _ s1 h).2 with ⟨h1, -⟩ | ⟨k, hk, h1, h2⟩
  · omega
  · have : k = size := by omega
    subst this
    rw [h2, ← hlen, List.take_length]

theorem call_wait_loop_skip (a : Nat) (w : World) (others : List (World → Option World))
    (h : ¬ (w.mem a = 0 ∧ w.rpc.active ≠ 0)) : call_wait_loop a w others = some w := by
  cases others <;> simp only [call_wait_loop, if_neg h]

theorem call_wait_loop_exit (a : Nat) (others : List (World → Option World)) :
    ∀ (w w1 : World), call_wait_loop a w others = some w1 →
      ¬ (w1.mem a = 0 ∧ w1.rpc.active ≠ 0) := by
  induction others with
  | nil =>
    intro w w1 h
    by_cases c : w.mem a = 0 ∧ w.rpc.active ≠ 0
    · rw [call_wait_loop, if_pos c] at h; cases h
    · rw [call_wait_loop, if_neg c] at h
      cases h; exact c
  | cons o rest ih =>
    intro w w1 h
    by_cases c : w.mem a = 0 ∧ w.rpc.active ≠ 0
    · rw [call_wait_loop, if_pos c] at h
      cases ho : o (rpc_cond_wait w) with
      | none => rw [ho] at h; cases h
      | some w2 => rw [ho] at h; exact ih w2 w1 h
    · rw [call_wait_loop, if_neg c] at h
      cases h; exact c

theorem thread_loop_stopped (L : Layout) (w : World) (script : List Ready)
    (h : w.rpc.active = 0) : thread_loop L w script = some w := by
  cases script <;> simp [thread_loop, h]

theorem thread_loop_active_zero (L : Layout) (script : List Ready) :
    ∀ (w w1 : World), thread_loop L w script = some w1 → w1.rpc.active = 0 := by
  induction script with
  | nil =>
    intro w w1 h
    by_cases c : w.rpc.active = 0
    · rw [thread_loop_stopped L w [] c] at h; cases h; exact c
    · simp [thread_loop, c] at h
  | cons fds rest ih =>
    intro w w1 h
    by_cases c : w.rpc.active = 0
    · rw [thread_loop_stopped L w _ c] at h; cases h; exact c
    · rw [thread_loop, if_pos c] at h
      cases hi : thread_iteration L w fds with
      | none => rw [hi] at h; cases h
      | some w2 => rw [hi] at h; exact ih w2 w1 h

theorem worker_stops_of_iteration (L : Layout) (w0 : World) (fds : Ready) (rest : List Ready)
    (w1 : World) (hact : w0.rpc.active ≠ 0)
    (hit : thread_iteration L w0 fds = some (set_active w1 0)) :
    worker_stops L w0 fds rest w1 := by
  refine ⟨hit, ?_, ?_⟩
  · simp only [thread_finish, thread_loop, if_pos hact, hit]
    rw [thread_loop_stopped L _ rest (by simp [set_active])]
  · intro a others
    refine ⟨call_wait_loop_skip a _ others (by simp [set_active, rpc_cond_signal]), ?_⟩
    simp [call_status, set_active, rpc_cond_signal]

theorem iteration_inbound_fail (L : Layout) (w0 : World) (fds : Ready) (rc : Int) (w1 : World)
    (hs : fds.sock = true) (h : rpc_recv L w0 = some (rc, w1)) (hrc : rc < 0) :
    thread_iteration L w0 fds = some (set_active w1 0) := by
  simp [thread_iteration, hs, h, hrc]

theorem iteration_outbound_fail (L : Layout) (w0 w : World) (fds : Ready) (rc : Int) (w1 : World)
    (hin : reaches_outbound L w0 fds w) (hp : fds.pipe = true)
    (h : rpc_send L w = some (rc, w1)) (hrc : rc < 0) :
    thread_iteration L w0 fds = some (set_active w1 0) := by
  rcases hin with ⟨hs, rfl⟩ | ⟨hs, rc0, hrc0, hr⟩
  · simp [thread_iteration, hs, thread_pipe, hp, h, hrc]
  · have : ¬ rc0 < 0 := not_lt.mpr hrc0
    simp [thread_iteration, hs, hr, this, thread_pipe, hp, h, hrc]

/-! ## The call API: `rpc_call` and `rpc_call_noreply` -/

/-- C6: on a session whose `active` flag is zero, `rpc_call` returns a negative
value without a single wait on the Completion Signal, whatever the enqueue
write returned: the value of the failed write itself, or `-1` after a write
that succeeded. -/
theorem rpc_call_inactive (w : World) (req : rpc_request_t) (a : Nat) (wr : Int)
    (others : List (World → Option World)) (h : w.rpc.active = 0) :
    ∃ ret req1 w1, rpc_call w req a wr others = some (ret, req1, w1) ∧ ret < 0 ∧
      w1.waits = w.waits ∧ (wr < 0 → ret = wr) ∧ (0 ≤ wr → ret = -1) := by
  by_cases hw : wr < 0
  · refine ⟨wr, { req with reply_marker := some a },
      { w with mem := fun x => if x = a then 0 else w.mem x }, ?_, hw, rfl, fun _ => rfl,
      fun h0 => absurd hw (not_lt.mpr h0)⟩
    simp only [rpc_call, __rpc_call, if_pos hw]
  · refine ⟨-1, { req with reply_marker := some a },
      { w with mem := fun x => if x = a then 0 else w.mem x,
               pipe := w.pipe ++ [{ req with reply_marker := some a }] }, ?_, by decide, rfl,
      fun h0 => absurd h0 hw, fun _ => rfl⟩
    simp only [rpc_call, __rpc_call, if_neg hw]
    rw [call_wait_loop_skip]
    · simp [call_status, h]
    · simp [h]

theorem rpc_call_inactive_witness :
    ∃ ret req1 w1, rpc_call stopped_world echo_req 100 18 [] = some (ret, req1, w1) ∧ ret < 0 ∧
      w1.waits = stopped_world.waits ∧ ((18 : Int) < 0 → ret = 18) ∧ ((0 : Int) ≤ 18 → ret = -1) :=
  rpc_call_inactive stopped_world echo_req 100 18 [] rfl

/-- C3 (as the code has it): after an enqueue write that succeeded, whenever
`rpc_call` returns, its wait loop has ended (marker set, or session stopped), and
it returns `0` exactly when the marker is set and `active` is still non-zero,
and `-1` exactly when `active` is zero, marker set or not. -/
theorem rpc_call_status (w : World) (req : rpc_request_t) (a : Nat) (wr : Int)
    (others : List (World → Option World)) (ret : Int) (req1 : rpc_request_t) (w1 : World)
    (hwr : 0 ≤ wr) (h : rpc_call w req a wr others = some (ret, req1, w1)) :
    (w1.mem a ≠ 0 ∨ w1.rpc.active = 0) ∧
    (ret = 0 ↔ (w1.mem a ≠ 0 ∧ w1.rpc.active ≠ 0)) ∧
    (ret = -1 ↔ w1.rpc.active = 0) := by
  have hw : ¬ wr < 0 := not_lt.mpr hwr
  simp only [rpc_call, __rpc_call, if_neg hw, one_ne_zero, if_false] at h
  split at h
  · cases h
  · rename_i w2 hl
    simp only [Option.some.injEq, Prod.mk.injEq] at h
    obtain ⟨hret, -, rfl⟩ := h
    have hex := call_wait_loop_exit a others _ _ hl
    by_cases hm : w2.mem a = 0 <;> by_cases ha : w2.rpc.active = 0 <;>
      simp [call_status, hm, ha] at hret hex ⊢ <;> omega


theorem rpc_call_status_witness :
    ∃ ret req1 w1, rpc_call stopping_world echo_req 100 18 [serve_queue_and_ctrl L5]
        = some (ret, req1, w1) ∧
      ((w1.mem 100 ≠ 0 ∨ w1.rpc.active = 0) ∧
       (ret = 0 ↔ (w1.mem 100 ≠ 0 ∧ w1.rpc.active ≠ 0)) ∧
       (ret = -1 ↔ w1.rpc.active = 0)) := by
  have hs : (rpc_call stopping_world echo_req 100 18 [serve_queue_and_ctrl L5]).isSome = true := by
    decide
  obtain ⟨⟨ret, req1, w1⟩, h⟩ := Option.isSome_iff_exists.mp hs
  exact ⟨ret, req1, w1, h, rpc_call_status _ _ _ _ _ ret req1 w1 (by decide) h⟩

/-- C3, the claim as stated fails: the worker completes the call (marker set to
`1`) and finds the shutdown byte in the same iteration, so the wait loop ends
with the marker set and `active = 0`, and `rpc_call` returns `-1`, not `0`. -/
theorem rpc_call_marker_set_but_stopped :
    (rpc_call stopping_world echo_req 100 18 [serve_queue_and_ctrl L5]).map
        (fun r => (r.1, r.2.2.mem 100, r.2.2.rpc.active)) = some (-1, 1, 0) := by
  decide

/-- C4, the code at the failing input: on an active session, with an enqueue
write that succeeded (18 bytes) and a worker that has not touched the envelope,
`rpc_call_noreply` does not wait, queues the envelope, and returns `-1`. -/
theorem rpc_call_noreply_unprocessed :
    (rpc_call_noreply started_world echo_req 100 18 []).map
        (fun r => (r.1, r.2.2.waits, r.2.2.pipe.length, r.2.2.mem 100, r.2.2.rpc.active))
      = some (-1, 0, 1, 0, 1) := by
  decide

/-- Whatever the session, once the enqueue write has succeeded `rpc_call_noreply`
returns `-1` without a wait: the marker it tests is the one it has just zeroed. -/
theorem rpc_call_noreply_fresh (w : World) (req : rpc_request_t) (a : Nat) (wr : Int)
    (others : List (World → Option World)) (hwr : 0 ≤ wr) :
    ∃ w1, rpc_call_noreply w req a wr others = some (-1, { req with reply_marker := some a }, w1) ∧
      w1.waits = w.waits ∧ w1.pipe = w.pipe ++ [{ req with reply_marker := some a }] := by
  have hw : ¬ wr < 0 := not_lt.mpr hwr
  refine ⟨{ w with mem := fun x => if x = a then 0 else w.mem x,
                   pipe := w.pipe ++ [{ req with reply_marker := some a }] }, ?_, rfl, rfl⟩
  simp [rpc_call_noreply, __rpc_call, hw, call_status]

/-- C2: when `rpc_recv` reads a whole header `h`, every run that returns has
invoked the handler exactly once more, on `h` and a reply of `sizeof(reply)`
zero bytes; and when the handler accepts and the whole reply goes out, what the
peer is sent is the reply as the handler left it, `rpc_recv` returns `0`, and
the iteration of the worker leaves `active` as it was. -/
theorem rpc_recv_inbound (L : Layout) (w : World) (hd : rpc_handler_t) (h : Bytes) (s1 : Sock)
    (hh : w.rpc.handler = some hd) (hpos : 0 < L.hdr)
    (hR : rpc_read w.sock w.junk L.hdr = some ((L.hdr : Int), h, s1)) :
    (∀ b ∈ List.replicate L.reply 0, b = 0) ∧
    (List.replicate L.reply 0).length = L.reply ∧
    (∀ rc w1, rpc_recv L w = some (rc, w1) →
      w1.calls = w.calls ++ [(h, List.replicate L.reply 0)]) ∧
    (∀ s2, (hd h (List.replicate L.reply 0)).1 = 0 →
      (hd h (List.replicate L.reply 0)).2.length = L.reply →
      rpc_write s1 (hd h (List.replicate L.reply 0)).2 L.reply = some ((L.reply : Int), s2) →
      ∃ w1, rpc_recv L w = some (0, w1) ∧
        w1.calls = w.calls ++ [(h, List.replicate L.reply 0)] ∧
        w1.sock.out = w.sock.out ++ [(hd h (List.replicate L.reply 0)).2] ∧
        thread_iteration L w { sock := true, pipe := false, ctrl := false } = some w1 ∧
        w1.rpc.active = w.rpc.active) := by
  have h1 : ¬ ((L.hdr : Int) ≤ 0) := by omega
  have h2 : ¬ ((L.reply : Int) < 0) := by omega
  refine ⟨fun b hb => (List.mem_replicate.mp hb).2, List.length_replicate _ _, ?_, ?_⟩
  · intro rc w1 hrecv
    simp only [rpc_recv, hR, h1, if_false, hh] at hrecv
    split at hrecv
    · cases hrecv; rfl
    · split at hrecv
      · cases hrecv
      · split at hrecv <;> (cases hrecv; rfl)
  · intro s2 hok hlen hW
    have hout : s2.out = w.sock.out ++ [(hd h (List.replicate L.reply 0)).2] := by
      rw [rpc_write_whole s1 _ L.reply s2 hlen hW, (rpc_read_sock _ _ _ _ _ _ hR).1]
    simp [rpc_recv, hR, h1, hh, hok, hW, h2, thread_iteration, thread_pipe, thread_ctrl, hout]


theorem rpc_recv_inbound_witness :
    (∀ rc w1, rpc_recv L5 inbound_world = some (rc, w1) →
      w1.calls = [(record 9 [120], [0, 0, 0, 0, 0])]) ∧
    record_code (record 9 [120]) = 9 ∧
    (∃ w1, rpc_recv L5 inbound_world = some (0, w1) ∧
        w1.calls = [(record 9 [120], [0, 0, 0, 0, 0])] ∧
        w1.sock.out = [record 9 [120]] ∧
        thread_iteration L5 inbound_world { sock := true, pipe := false, ctrl := false }
          = some w1 ∧
        w1.rpc.active = 1) :=
  have key := rpc_recv_inbound L5 inbound_world mirror_handler (record 9 [120])
    { rx := [], tx := [SendEv.accept 5], out := [] } rfl (by decide) rfl
  ⟨key.2.2.1, by decide,
    key.2.2.2 { rx := [], tx := [], out := [record 9 [120]] } rfl rfl rfl⟩


/-- C5 (as the code has it): in a worker iteration, when a socket transfer
returns a negative value (header read or reply write of `rpc_recv`, header write
or reply read of `rpc_send`), or the header read of `rpc_recv` returns `0`
because the peer closed, the step returns `-1`, the worker clears `active` and
leaves its loop, and on the outbound path neither marker nor broadcast happens
inside the step, so that every waiting call ends with `-1`. -/
theorem transfer_failure_stops (L : Layout) (w0 w : World) (fds : Ready) (rest : List Ready)
    (hact : w0.rpc.active ≠ 0) :
    (∀ ret hdr s, fds.sock = true →
      rpc_read w0.sock w0.junk L.hdr = some (ret, hdr, s) → ret ≤ 0 →
      ∃ w1, rpc_recv L w0 = some (-1, w1) ∧ w1.calls = w0.calls ∧
        worker_stops L w0 fds rest w1) ∧
    (∀ hd ret hdr s ret2 s2, fds.sock = true → w0.rpc.handler = some hd →
      rpc_read w0.sock w0.junk L.hdr = some (ret, hdr, s) → 0 < ret →
      (hd hdr (List.replicate L.reply 0)).1 = 0 →
      rpc_write s (hd hdr (List.replicate L.reply 0)).2 L.reply = some (ret2, s2) → ret2 < 0 →
      ∃ w1, rpc_recv L w0 = some (-1, w1) ∧ worker_stops L w0 fds rest w1) ∧
    (∀ req q ret s, reaches_outbound L w0 fds w → fds.pipe = true → w.pipe = req :: q →
      rpc_write w.sock req.header L.hdr = some (ret, s) → ret < 0 →
      ∃ w1, rpc_send L w = some (-1, w1) ∧ w1.mem = w.mem ∧ w1.signals = w.signals ∧
        w1.calls = w.calls ∧ worker_stops L w0 fds rest w1) ∧
    (∀ req q ret s ret2 r s2, reaches_outbound L w0 fds w → fds.pipe = true →
      w.pipe = req :: q →
      rpc_write w.sock req.header L.hdr = some (ret, s) → 0 ≤ ret →
      rpc_read s req.reply L.reply = some (ret2, r, s2) → ret2 < 0 →
      ∃ w1, rpc_send L w = some (-1, w1) ∧ w1.mem = w.mem ∧ w1.signals = w.signals ∧
        w1.calls = w.calls ∧ worker_stops L w0 fds rest w1) := by
  refine ⟨?_, ?_, ?_, ?_⟩
  · intro ret hdr s hs hR hret
    have hrecv : rpc_recv L w0 = some (-1, { w0 with sock := s }) := by
      simp [rpc_recv, hR, hret]
    exact ⟨_, hrecv, rfl, worker_stops_of_iteration L w0 fds rest _ hact
      (iteration_inbound_fail L w0 fds _ _ hs hrecv (by decide))⟩
  · intro hd ret hdr s ret2 s2 hs hh hR hret hok hW hret2
    have h1 : ¬ ret ≤ 0 := not_le.mpr hret
    have hrecv : rpc_recv L w0 = some (-1, { w0 with
        sock := s2, calls := w0.calls ++ [(hdr, List.replicate L.reply 0)] }) := by
      simp [rpc_recv, hR, h1, hh, hok, hW, hret2]
    exact ⟨_, hrecv, worker_stops_of_iteration L w0 fds rest _ hact
      (iteration_inbound_fail L w0 fds _ _ hs hrecv (by decide))⟩
  · intro req q ret s hin hp hq hW hret
    have hsend : rpc_send L w = some (-1, { w with pipe := q, sock := s }) := by
      simp [rpc_send, hq, hW, hret]
    exact ⟨_, hsend, rfl, rfl, rfl, worker_stops_of_iteration L w0 fds rest _ hact
      (iteration_outbound_fail L w0 w fds _ _ hin hp hsend (by decide))⟩
  · intro req q ret s ret2 r s2 hin hp hq hW hret hR hret2
    have h1 : ¬ ret < 0 := not_lt.mpr hret
    have hsend : rpc_send L w = some (-1, { w with pipe := q, sock := s2 }) := by
      simp [rpc_send, hq, hW, h1, hR, hret2]
    exact ⟨_, hsend, rfl, rfl, rfl, worker_stops_of_iteration L w0 fds rest _ hact
      (iteration_outbound_fail L w0 w fds _ _ hin hp hsend (by decide))⟩


theorem transfer_failure_stops_witness :
    (∃ w1, rpc_recv L5 eof_world = some (-1, w1) ∧ w1.calls = eof_world.calls ∧
        worker_stops L5 eof_world { sock := true, pipe := true, ctrl := true } [] w1) ∧
    (∃ w1, rpc_send L5 reset_call_world = some (-1, w1) ∧ w1.mem = reset_call_world.mem ∧
        w1.signals = reset_call_world.signals ∧ w1.calls = reset_call_world.calls ∧
        worker_stops L5 reset_call_world { sock := false, pipe := true, ctrl := false } [] w1) :=
  ⟨(transfer_failure_stops L5 eof_world eof_world { sock := true, pipe := true, ctrl := true } []
      (by decide)).1 0 eof_world.junk { rx := [], tx := [], out := [] } rfl rfl (by decide),
   (transfer_failure_stops L5 reset_call_world reset_call_world
      { sock := false, pipe := true, ctrl := false } [] (by decide)).2.2.2
      queued_req [] 5 { rx := [RecvEv.err 104], tx := [], out := [record 5 [120]] }
      (-1) [0, 0, 0, 0, 0] { rx := [], tx := [], out := [record 5 [120]] }
      (Or.inl ⟨rfl, rfl⟩) rfl rfl rfl (by decide) rfl (by decide)⟩

/-- C5, the claim as stated fails: the header read of `rpc_recv` moves one byte
out of five, fewer than the record size, and the step still invokes the handler
on the part-filled buffer, writes the reply, returns `0` and leaves the worker
active. -/
theorem short_read_not_detected :
    (rpc_read short_world.sock short_world.junk L5.hdr).map (fun r => r.1) = some 1 ∧
    (rpc_recv L5 short_world).map (fun r => (r.1, r.2.calls, r.2.sock.out, r.2.rpc.active))
      = some (0, [([9, 170, 170, 170, 170], [0, 0, 0, 0, 0])], [[0, 0, 0, 0, 0]], 1) ∧
    (thread_iteration L5 short_world { sock := true, pipe := false, ctrl := false }).map
        (fun x => x.rpc.active) = some 1 :=
  ⟨rfl, rfl, rfl⟩

/-- C10: in a worker iteration in which the handler returns non-zero, on the
inbound path `rpc_recv` returns `-1` with nothing sent and no send attempted, on
the outbound path `rpc_send` returns `-1` with no marker set; in both cases the
pipes of the readiness sources that follow are left untouched, the worker
clears `active` and leaves the loop as it does for a transfer error
(`worker_stops`), and exactly one broadcast follows. -/
theorem handler_failure_stops (L : Layout) (w0 w : World) (fds : Ready) (rest : List Ready)
    (hact : w0.rpc.active ≠ 0) :
    (∀ hd ret hdr s, fds.sock = true → w0.rpc.handler = some hd →
      rpc_read w0.sock w0.junk L.hdr = some (ret, hdr, s) → 0 < ret →
      (hd hdr (List.replicate L.reply 0)).1 ≠ 0 →
      ∃ w1, rpc_recv L w0 = some (-1, w1) ∧
        w1.sock.out = w0.sock.out ∧ w1.sock.tx = w0.sock.tx ∧
        w1.pipe = w0.pipe ∧ w1.ctrl = w0.ctrl ∧ w1.mem = w0.mem ∧
        worker_stops L w0 fds rest w1 ∧
        (rpc_cond_signal (set_active w1 0)).signals = w0.signals + 1) ∧
    (∀ hd req q ret s ret2 r s2, reaches_outbound L w0 fds w → fds.pipe = true →
      w.pipe = req :: q → w.rpc.handler = some hd →
      rpc_write w.sock req.header L.hdr = some (ret, s) → 0 ≤ ret →
      rpc_read s req.reply L.reply = some (ret2, r, s2) → 0 ≤ ret2 →
      (hd req.header r).1 ≠ 0 →
      ∃ w1, rpc_send L w = some (-1, w1) ∧
        w1.mem = w.mem ∧ w1.ctrl = w.ctrl ∧
        worker_stops L w0 fds rest w1 ∧
        (rpc_cond_signal (set_active w1 0)).signals = w.signals + 1) := by
  refine ⟨?_, ?_⟩
  · intro hd ret hdr s hs hh hR hret hbad
    have h1 : ¬ ret ≤ 0 := not_le.mpr hret
    have hrecv : rpc_recv L w0 = some (-1, { w0 with
        sock := s, calls := w0.calls ++ [(hdr, List.replicate L.reply 0)] }) := by
      simp [rpc_recv, hR, h1, hh, hbad]
    have hs1 := rpc_read_sock _ _ _ _ _ _ hR
    exact ⟨_, hrecv, hs1.1, hs1.2, rfl, rfl, rfl,
      worker_stops_of_iteration L w0 fds rest _ hact
        (iteration_inbound_fail L w0 fds _ _ hs hrecv (by decide)), rfl⟩
  · intro hd req q ret s ret2 r s2 hin hp hq hh hW hret hR hret2 hbad
    have h1 : ¬ ret < 0 := not_lt.mpr hret
    have h2 : ¬ ret2 < 0 := not_lt.mpr hret2
    have hsend : rpc_send L w = some (-1, { w with
        pipe := q, sock := s2, calls := w.calls ++ [(req.header, r)] }) := by
      simp [rpc_send, hq, hW, h1, hR, h2, hh, hbad]
    exact ⟨_, hsend, rfl, rfl,
      worker_stops_of_iteration L w0 fds rest _ hact
        (iteration_outbound_fail L w0 w fds _ _ hin hp hsend (by decide)), rfl⟩


theorem handler_failure_stops_witness :
    (∃ w1, rpc_recv L5 rejecting_world = some (-1, w1) ∧
        w1.sock.out = rejecting_world.sock.out ∧ w1.sock.tx = rejecting_world.sock.tx ∧
        w1.pipe = rejecting_world.pipe ∧ w1.ctrl = rejecting_world.ctrl ∧
        w1.mem = rejecting_world.mem ∧
        worker_stops L5 rejecting_world { sock := true, pipe := true, ctrl := true } [] w1 ∧
        (rpc_cond_signal (set_active w1 0)).signals = rejecting_world.signals + 1) ∧
    (∃ w1, rpc_send L5 rejecting_call_world = some (-1, w1) ∧
        w1.mem = rejecting_call_world.mem ∧ w1.ctrl = rejecting_call_world.ctrl ∧
        worker_stops L5 rejecting_call_world { sock := false, pipe := true, ctrl := true } [] w1 ∧
        (rpc_cond_signal (set_active w1 0)).signals = rejecting_call_world.signals + 1) :=
  ⟨(handler_failure_stops L5 rejecting_world rejecting_world
      { sock := true, pipe := true, ctrl := true } [] (by decide)).1
      failing_handler 5 (record 9 [120]) { rx := [], tx := [SendEv.accept 5], out := [] }
      rfl rfl rfl (by decide) (by decide),
   (handler_failure_stops L5 rejecting_call_world rejecting_call_world
      { sock := false, pipe := true, ctrl := true } [] (by decide)).2
      failing_handler queued_req [] 5
      { rx := [RecvEv.data (record 6 [120])], tx := [], out := [record 5 [120]] }
      5 (record 6 [120]) { rx := [], tx := [], out := [record 5 [120]] }
      (Or.inl ⟨rfl, rfl⟩) rfl rfl rfl rfl (by decide) rfl (by decide) (by decide)⟩

/-! ## Session lifecycle -/

/-- C7: `rpc_init` returns `-1` whenever `fd < 0`, the handler is `NULL` or the
session is `NULL`, and then creates nothing and leaves the session as it was;
and with `fd >= 0`, a handler and a session, when the four primitives and both
pipes are created, it returns `0` with `fd` and the handler stored in the
session, the pipe ends recorded, and `active` untouched (still zero when it was
zero). -/
theorem rpc_init_validates (fd : Int) (handler : Option rpc_handler_t)
    (rpc : Option StcRpc.rpc) (env : InitEnv) (os : Os) :
    ((fd < 0 ∨ handler = none ∨ rpc = none) → rpc_init fd handler rpc env os = (-1, rpc, os)) ∧
    (∀ h r p1 p2, 0 ≤ fd → handler = some h → rpc = some r →
      env.fd_mutex = 0 → env.cond_mtx = 0 → env.cond = 0 → env.pipe_mtx = 0 →
      env.pipefd = some p1 → env.pipectrl = some p2 →
      ∃ r1 os1, rpc_init fd handler rpc env os = (0, some r1, os1) ∧
        r1.fd = fd ∧ r1.handler = some h ∧ r1.active = r.active ∧
        (r.active = 0 → r1.active = 0) ∧
        r1.pipefd = p1 ∧ r1.pipectrl = p2 ∧
        os1.fds = p2.2 :: p2.1 :: p1.2 :: p1.1 :: os.fds ∧
        os1.prims = Prim.pipe_mtx :: Prim.cond :: Prim.cond_mtx :: Prim.fd_mutex :: os.prims ∧
        os1.nonblock = fd :: p2.1 :: p2.2 :: p1.1 :: p1.2 :: os.nonblock) := by
  constructor
  · intro hbad
    by_cases hfd : fd < 0
    · simp [rpc_init, hfd]
    · cases handler with
      | none => simp [rpc_init, hfd]
      | some h =>
        cases rpc with
        | none => simp [rpc_init, hfd]
        | some r => simp [hfd] at hbad
  · intro h r p1 p2 hfd hh hr e1 e2 e3 e4 e5 e6
    subst hh hr
    have hfd1 : ¬ fd < 0 := not_lt.mpr hfd
    refine ⟨{ r with pipefd := p1, pipectrl := p2, fd := fd, handler := some h },
      set_nonblocking (set_nonblocking (set_nonblocking (set_nonblocking (set_nonblocking
        (pipe_open (pipe_open (prim_init (prim_init (prim_init (prim_init os Prim.fd_mutex)
          Prim.cond_mtx) Prim.cond) Prim.pipe_mtx) p1) p2) p1.2) p1.1) p2.2) p2.1) fd,
      ?_, rfl, rfl, rfl, fun h0 => h0, rfl, rfl, rfl, rfl, rfl⟩
    simp [rpc_init, hfd1, e1, e2, e3, e4, e5, e6]


theorem rpc_init_validates_witness :
    (rpc_init (-1) (some identity_handler) (some fresh_rpc) all_created boot_os
        = (-1, some fresh_rpc, boot_os)) ∧
    (rpc_init 3 none (some fresh_rpc) all_created boot_os = (-1, some fresh_rpc, boot_os)) ∧
    (rpc_init 3 (some identity_handler) none all_created boot_os = (-1, none, boot_os)) ∧
    (∃ r1 os1, rpc_init 3 (some identity_handler) (some fresh_rpc) all_created boot_os
          = (0, some r1, os1) ∧
        r1.fd = 3 ∧ r1.handler = some identity_handler ∧ r1.active = fresh_rpc.active ∧
        (fresh_rpc.active = 0 → r1.active = 0) ∧
        r1.pipefd = (4, 5) ∧ r1.pipectrl = (6, 7) ∧
        os1.fds = 7 :: 6 :: 5 :: 4 :: boot_os.fds ∧
        os1.prims = Prim.pipe_mtx :: Prim.cond :: Prim.cond_mtx :: Prim.fd_mutex :: boot_os.prims ∧
        os1.nonblock = 3 :: 6 :: 7 :: 4 :: 5 :: boot_os.nonblock) :=
  ⟨(rpc_init_validates (-1) (some identity_handler) (some fresh_rpc) all_created boot_os).1
      (Or.inl (by decide)),
   (rpc_init_validates 3 none (some fresh_rpc) all_created boot_os).1 (Or.inr (Or.inl rfl)),
   (rpc_init_validates 3 (some identity_handler) none all_created boot_os).1
      (Or.inr (Or.inr rfl)),
   (rpc_init_validates 3 (some identity_handler) (some fresh_rpc) all_created boot_os).2
      identity_handler fresh_rpc (4, 5) (6, 7) (by decide) rfl rfl rfl rfl rfl rfl rfl rfl⟩

/-- C8, the code at the failing input: when `pipe(rpc->pipectrl)` fails after
everything before it was created, `rpc_init` returns `-1` and destroys the four
primitives, but the two descriptors of the Call Queue pipe (4 and 5) stay open:
the resources held after the call are not those held before it. -/
theorem rpc_init_leaks_queue_pipe :
    (rpc_init 3 (some identity_handler) (some fresh_rpc) ctrl_pipe_fails boot_os).1 = -1 ∧
    (rpc_init 3 (some identity_handler) (some fresh_rpc) ctrl_pipe_fails boot_os).2.2
      = { fds := [5, 4, 3], prims := [], nonblock := [] } ∧
    (rpc_init 3 (some identity_handler) (some fresh_rpc) ctrl_pipe_fails boot_os).2.2 ≠ boot_os := by
  decide

/-- At each of the five earlier failure points (the three mutexes, the
condition variable, the Call Queue pipe) `rpc_init` returns `-1` with the
session and the resources exactly as they were before the call. -/
theorem rpc_init_releases_before_ctrl_pipe (fd : Int) (h : rpc_handler_t) (r : rpc)
    (env : InitEnv) (os : Os)
    (hfail : env.fd_mutex ≠ 0 ∨ env.cond_mtx ≠ 0 ∨ env.cond ≠ 0 ∨ env.pipe_mtx ≠ 0 ∨
      env.pipefd = none) :
    rpc_init fd (some h) (some r) env os = (-1, some r, os) := by
  by_cases hfd : fd < 0
  · simp [rpc_init, hfd]
  · by_cases e1 : env.fd_mutex = 0
    · by_cases e2 : env.cond_mtx = 0
      · by_cases e3 : env.cond = 0
        · by_cases e4 : env.pipe_mtx = 0
          · have e5 : env.pipefd = none := by simpa [e1, e2, e3, e4] using hfail
            simp [rpc_init, hfd, e1, e2, e3, e4, e5, fail_pipe, fail_pipe_mutex, fail_cond,
              fail_cond_mutex, prim_init, prim_destroy]
          · simp [rpc_init, hfd, e1, e2, e3, e4, fail_pipe_mutex, fail_cond,
              fail_cond_mutex, prim_init, prim_destroy]
        · simp [rpc_init, hfd, e1, e2, e3, fail_cond, fail_cond_mutex, prim_init, prim_destroy]
      · simp [rpc_init, hfd, e1, e2, fail_cond_mutex, prim_init, prim_destroy]
    · simp [rpc_init, hfd, e1]

theorem sys_close_closed (w : World) (fd : Int) (h : fd ∉ w.os.fds) :
    sys_close w fd = { w with trace := w.trace ++ [Op.close fd (-1)] } := by
  unfold sys_close
  rw [if_neg h]

end StcRpc
